import Mathlib

/-!
Verification development for the car_racing distance engine
(`src/core/timing_engine.py`, `src/core/distance_reset_handler.py`,
`src/config.py`).

Numeric modelling convention: Python float arithmetic is modelled by exact
arithmetic in a linear ordered field `α` (instantiated at `ℚ` for the
rational pipeline and at `ℝ` where the transcendental flat-earth geometry
matters).  A pandas value that is NaN or whose column is absent is modelled
uniformly as `Option.none`.  The transcendental primitives
(`np.cos ∘ np.radians`, `np.sqrt`, and the haversine formula) are passed as
explicit function parameters `cosdeg`, `sqrtFn`, `hav`; the real-number
instantiations are given where a claim depends on their actual values.
-/

set_option maxHeartbeats 1000000
set_option maxRecDepth 8000
set_option linter.unusedSectionVars false

namespace CarRacing

/-- One telemetry sample (one dataframe row): timestamp, optional lat/lon
(`none` = NaN or absent column), planar x/y, optional speed in km/h. -/
structure Sample (α : Type) where
  ts : α
  lat : Option α
  lon : Option α
  x : α
  y : α
  speed : Option α
deriving DecidableEq

variable {α : Type} [LinearOrderedField α]

/-- Lookup in an insertion-ordered association list (Python dict read). -/
def lookupA {κ ν : Type} [DecidableEq κ] : List (κ × ν) → κ → Option ν
  | [], _ => none
  | (k, v) :: rest, key => if k = key then some v else lookupA rest key

/-- Python dict assignment: replace in place if the key exists (keeping its
insertion position), otherwise append at the end. -/
def insertA {κ ν : Type} [DecidableEq κ] (m : List (κ × ν)) (key : κ) (v : ν) :
    List (κ × ν) :=
  if m.any (fun p => p.1 = key) then
    m.map (fun p => if p.1 = key then (key, v) else p)
  else m ++ [(key, v)]

/-- `config.DistanceReset.MAX_HISTORY_SIZE` (src/config.py line 198). -/
def MAX_HISTORY_SIZE : ℕ := 1000

/-- `config.Performance.DISTANCE_CACHE_SIZE` (src/config.py line 51). -/
def DISTANCE_CACHE_SIZE : ℕ := 1000

/-- `config.Performance.CACHE_CLEANUP_THRESHOLD` (src/config.py line 53). -/
def CACHE_CLEANUP_THRESHOLD : ℕ := 200

/-- `DistanceResetHandler._add_to_history` (distance_reset_handler.py
lines 510-521): append, then keep only the trailing `MAX_HISTORY_SIZE`
entries (`history[-max_history:]`). -/
def addToHistory (h : List (α × α)) (t d : α) : List (α × α) :=
  let h2 := h ++ [(t, d)]
  if MAX_HISTORY_SIZE < h2.length then h2.drop (h2.length - MAX_HISTORY_SIZE)
  else h2

/-- Consecutive pairs of a list; models a pandas `.diff()` column, whose
first row is NaN and is dropped from every sum below. -/
def consecPairs {γ : Type} : List γ → List (γ × γ)
  | [] => []
  | [_] => []
  | a :: b :: rest => (a, b) :: consecPairs (b :: rest)

/-- The per-row GPS validity mask of `_calculate_preliminary_distance`
(timing_engine.py lines 157-158) and of `_calculate_gps_distance_from_start`
(distance_reset_handler.py lines 434-435): `lat != 0 & lon != 0 & lat
notna & lon notna`.  Note: each coordinate must be individually nonzero and
there is no range check here. -/
def validGpsRow (s : Sample α) : Bool :=
  match s.lat, s.lon with
  | some la, some lo => decide (la ≠ 0) && decide (lo ≠ 0)
  | _, _ => false

/-- One flat-earth pair distance of tier 1 (timing_engine.py lines 164-166):
`Δlat·111000` north-south, `Δlon·111000·cos(radians(lat))` east-west with
the *second* row's latitude (pandas `diff` aligns at the later row),
Euclidean combine. -/
def gpsPairDist (cosdeg sqrtFn : α → α) (p q : Sample α) : α :=
  let latd := (q.lat.getD 0 - p.lat.getD 0) * 111000
  let lond := (q.lon.getD 0 - p.lon.getD 0) * 111000 * cosdeg (q.lat.getD 0)
  sqrtFn (latd ^ 2 + lond ^ 2)

/-- Tier 1 sum over consecutive valid-GPS rows (timing_engine.py line 167). -/
def tier1Distance (cosdeg sqrtFn : α → α) (rows : List (Sample α)) : α :=
  ((consecPairs rows).map (fun pq => gpsPairDist cosdeg sqrtFn pq.1 pq.2)).sum

/-- The per-row speed validity mask of tier 2 (timing_engine.py line 173):
`speed notna & speed >= 0`. -/
def validSpeedRow (s : Sample α) : Bool :=
  match s.speed with
  | some v => decide (0 ≤ v)
  | none => false

/-- One tier-2 segment (timing_engine.py lines 178-182): the later row's
speed (km/h → m/s) times the elapsed time since the previous valid-speed
row. -/
def speedSegment (p q : Sample α) : α :=
  q.speed.getD 0 * 1000 / 3600 * (q.ts - p.ts)

/-- Tier 2 speed-integration sum (timing_engine.py lines 184-187): negative
segments are dropped (`distance_segment >= 0`), the NaN first row is
dropped by the pair representation. -/
def tier2Distance (rows : List (Sample α)) : α :=
  (((consecPairs rows).map (fun pq => speedSegment pq.1 pq.2)).filter
      (fun seg => decide (0 ≤ seg))).sum

/-- Tier 3 raw x/y fallback (timing_engine.py lines 191-194). -/
def tier3Distance (sqrtFn : α → α) (rows : List (Sample α)) : α :=
  ((consecPairs rows).map (fun pq =>
      sqrtFn ((pq.2.x - pq.1.x) ^ 2 + (pq.2.y - pq.1.y) ^ 2))).sum

/-- `F1LiveTiming._calculate_preliminary_distance` (timing_engine.py lines
153-196).  Tier 1 runs iff at least two rows pass `validGpsRow` (the code's
`valid_gps.any()` plus `len >= 2`); tier 2 runs iff at least two rows pass
`validSpeedRow` (the code's column-present / not-all-NaN / `valid_speed.any()`
/ `len >= 2` cascade collapses to exactly this); otherwise tier 3. -/
def calcPreliminaryDistance (cosdeg sqrtFn : α → α) (rows : List (Sample α)) : α :=
  let gpsRows := rows.filter validGpsRow
  if 2 ≤ gpsRows.length then tier1Distance cosdeg sqrtFn gpsRows
  else
    let speedRows := rows.filter validSpeedRow
    if 2 ≤ speedRows.length then tier2Distance speedRows
    else tier3Distance sqrtFn rows

/-- `DistanceResetHandler._is_valid_gps_coordinate` (distance_reset_handler.py
lines 473-486): not NaN, not exactly `(0,0)`, within `[-90,90]×[-180,180]`. -/
def isValidGpsCoordinate (lat lon : Option α) : Bool :=
  match lat, lon with
  | some la, some lo =>
      if la = 0 ∧ lo = 0 then false
      else decide (-90 ≤ la ∧ la ≤ 90 ∧ -180 ≤ lo ∧ lo ≤ 180)
  | _, _ => false

/-- `_get_position_data_at_time` (distance_reset_handler.py lines 488-508):
the first row minimizing `|timeStamp - target|` (pandas `idxmin` returns the
first minimizer), `none` when there are no rows. -/
def closestRow (rows : List (Sample α)) (t : α) : Option (Sample α) :=
  rows.foldl (fun best s =>
    match best with
    | none => some s
    | some b => if |s.ts - t| < |b.ts - t| then some s else some b) none

/-- `_calculate_gps_distance_from_start` (distance_reset_handler.py lines
423-457): rows up to `t`, filtered by the nonzero/non-NaN GPS mask, summed
pairwise with the haversine formula `hav` under a second validity check;
all degenerate cases (and the `except` branch) yield `0`. -/
def gpsDistFromStart (hav : α → α → α → α → α) (rows : List (Sample α)) (t : α) : α :=
  let upto := rows.filter (fun s => decide (s.ts ≤ t))
  if upto.length < 2 then 0
  else
    let pts := upto.filter validGpsRow
    if pts.length < 2 then 0
    else ((consecPairs pts).map (fun pq =>
        if isValidGpsCoordinate pq.1.lat pq.1.lon &&
            isValidGpsCoordinate pq.2.lat pq.2.lon then
          hav (pq.1.lat.getD 0) (pq.1.lon.getD 0) (pq.2.lat.getD 0) (pq.2.lon.getD 0)
        else 0)).sum

/-- `DistanceResetEvent` (distance_reset_handler.py lines 19-30), without
the free-form `details` dict. -/
structure ResetEvent (α : Type) where
  car_id : ℕ
  timestamp : α
  prev_distance : α
  current_distance : α
  drop_percentage : α
  reset_type : String
  recovery_method : String
  confidence : α
deriving DecidableEq

/-- `DistanceResetHandler.detect_distance_reset` (distance_reset_handler.py
lines 81-204).  Returns the optional event together with the car's new
history list (the code mutates `self.distance_history[car_id]` in place via
`_add_to_history`; on any detection the history is left untouched).
Thresholds are the config defaults: large gap 300 s (hard-coded literal),
`DROP_THRESHOLD_PERCENT = 80`, `SPEED_ANOMALY_THRESHOLD = 150` km/h. -/
def detectDistanceReset (hav : α → α → α → α → α) (carId : ℕ) (t d : α)
    (rows : List (Sample α)) (history : List (α × α)) :
    Option (ResetEvent α) × List (α × α) :=
  match history.getLast? with
  | none => (none, addToHistory history t d)
  | some (pt, pd) =>
    let timeDiff := t - pt
    if 300 < timeDiff then (none, addToHistory history t d)
    else
      let dropPct := (pd - d) / pd * 100
      if 0 < pd ∧ d < pd ∧ 80 < dropPct then
        (some { car_id := carId, timestamp := t, prev_distance := pd,
                current_distance := d, drop_percentage := dropPct,
                reset_type := "distance_drop", recovery_method := "",
                confidence := min (dropPct / 100) 1 }, history)
      else
        let impliedKmh := |d - pd| / timeDiff * (36 / 10)
        if 0 < timeDiff ∧ 150 < impliedKmh then
          (some { car_id := carId, timestamp := t, prev_distance := pd,
                  current_distance := d, drop_percentage := 0,
                  reset_type := "speed_anomaly", recovery_method := "",
                  confidence := min (impliedKmh / 200) 1 }, history)
        else
          let posValid := match closestRow rows t with
            | some s => isValidGpsCoordinate s.lat s.lon
            | none => false
          if posValid then
            let g := gpsDistFromStart hav rows t
            let diffPct := |d - g| / max g 1 * 100
            if 0 < g ∧ 50 < diffPct then
              (some { car_id := carId, timestamp := t, prev_distance := pd,
                      current_distance := d, drop_percentage := diffPct,
                      reset_type := "gps_mismatch", recovery_method := "",
                      confidence := min (diffPct / 100) 1 }, history)
            else (none, addToHistory history t d)
          else (none, addToHistory history t d)

/-- `RecoveryResult` (distance_reset_handler.py lines 32-40), without the
metadata dict. -/
structure RecoveryResult (α : Type) where
  success : Bool
  recovered_distance : α
  method_used : String
  confidence : α
  error_message : Option String
deriving DecidableEq

/-- The integration loop of `_recover_by_speed_integration`
(distance_reset_handler.py lines 276-293): each row contributes
`min(speed,150) km/h → m/s` times the elapsed time since the *previous row*
(the first row pairs with the last good time); NaN or negative speeds
contribute nothing but still anchor the next row's elapsed time. -/
def integrateSpeed (lastT : α) (rows : List (Sample α)) : α :=
  (rows.zip (lastT :: rows.map (fun s => s.ts))).foldl
    (fun acc sp =>
      match sp.1.speed with
      | none => acc
      | some v =>
          if v < 0 then acc
          else acc + min v 150 * 1000 / 3600 * (sp.1.ts - sp.2)) 0

/-- `_recover_by_speed_integration` (distance_reset_handler.py lines
254-312). -/
def recoverBySpeedIntegration (ev : ResetEvent α) (rows : List (Sample α))
    (history : List (α × α)) : RecoveryResult α :=
  if h : history.length < 2 then
    ⟨false, 0, "speed_integration", 0, some "Insufficient history"⟩
  else
    let lg := history.get ⟨history.length - 2, by omega⟩
    let speedRows := rows.filter (fun s => decide (lg.1 < s.ts ∧ s.ts ≤ ev.timestamp))
    if speedRows.length = 0 then
      ⟨false, 0, "speed_integration", 0, some "No speed data available"⟩
    else
      let recovered := lg.2 + integrateSpeed lg.1 speedRows
      if lg.2 < recovered ∧ recovered < lg.2 * 3 then
        ⟨true, recovered, "speed_integration", 9 / 10, none⟩
      else ⟨false, 0, "speed_integration", 0, some "Unrealistic result"⟩

/-- `_recover_by_gps` (distance_reset_handler.py lines 314-345). -/
def recoverByGps (hav : α → α → α → α → α) (ev : ResetEvent α)
    (rows : List (Sample α)) (history : List (α × α)) : RecoveryResult α :=
  let g := gpsDistFromStart hav rows ev.timestamp
  if g ≤ 0 then ⟨false, 0, "gps_recovery", 0, some "Invalid GPS distance"⟩
  else
    match history.getLast? with
    | some last =>
        if g < last.2 * (1 / 2) then
          ⟨false, 0, "gps_recovery", 0, some "GPS distance too low"⟩
        else ⟨true, g, "gps_recovery", 8 / 10, none⟩
    | none => ⟨true, g, "gps_recovery", 8 / 10, none⟩

/-- `_recover_by_interpolation` (distance_reset_handler.py lines 347-396):
average speed over the last three history points, extrapolated to the event
timestamp. -/
def recoverByInterpolation (ev : ResetEvent α) (history : List (α × α)) :
    RecoveryResult α :=
  if h : history.length < 3 then
    ⟨false, 0, "linear_interpolation", 0, some "Insufficient history for interpolation"⟩
  else
    let p0 := history.get ⟨history.length - 3, by omega⟩
    let p2 := history.get ⟨history.length - 1, by omega⟩
    let totalT := p2.1 - p0.1
    if totalT ≤ 0 then ⟨false, 0, "linear_interpolation", 0, some "Invalid time range"⟩
    else
      let avgMs := (p2.2 - p0.2) / totalT
      let avgKmh := avgMs * (36 / 10)
      if 150 < avgKmh ∨ avgKmh < 0 then
        ⟨false, 0, "linear_interpolation", 0, some "Unrealistic average speed"⟩
      else
        let dt := ev.timestamp - p2.1
        if 60 < dt then
          ⟨false, 0, "linear_interpolation", 0, some "Time gap too large for interpolation"⟩
        else ⟨true, p2.2 + avgMs * dt, "linear_interpolation", 7 / 10, none⟩

/-- `_recover_by_fallback` (distance_reset_handler.py lines 398-421): the
second-to-last history entry when at least two exist, the only entry when
exactly one exists, the event's `prev_distance` when the history is empty;
always succeeds with confidence 0.5. -/
def recoverByFallback (ev : ResetEvent α) (history : List (α × α)) :
    RecoveryResult α :=
  let fd :=
    if h : 2 ≤ history.length then (history.get ⟨history.length - 2, by omega⟩).2
    else
      match history.getLast? with
      | some last => last.2
      | none => ev.prev_distance
  ⟨true, fd, "fallback", 1 / 2, none⟩

/-- `DistanceResetHandler.recover_distance` (distance_reset_handler.py lines
206-252): the four strategies tried strictly in order, first success
returned; the successful method name is written onto the event's
`recovery_method`. -/
def recoverDistance (hav : α → α → α → α → α) (ev : ResetEvent α)
    (rows : List (Sample α)) (history : List (α × α)) :
    RecoveryResult α × ResetEvent α :=
  let r1 := recoverBySpeedIntegration ev rows history
  if r1.success then (r1, { ev with recovery_method := "speed_integration" })
  else
    let r2 := recoverByGps hav ev rows history
    if r2.success then (r2, { ev with recovery_method := "gps_recovery" })
    else
      let r3 := recoverByInterpolation ev history
      if r3.success then (r3, { ev with recovery_method := "linear_interpolation" })
      else (recoverByFallback ev history, { ev with recovery_method := "fallback" })

/-- The mutable state of `F1LiveTiming` and its `DistanceResetHandler` that
the distance pipeline touches: the insertion-ordered distance cache
(timing_engine.py line 36), the per-car distance history and the reset-event
log (distance_reset_handler.py lines 67-69). -/
structure EngineState (α : Type) where
  cache : List ((ℕ × α) × α)
  histories : List (ℕ × List (α × α))
  events : List (ResetEvent α)
deriving DecidableEq

def emptyEngine : EngineState α := ⟨[], [], []⟩

/-- The car's history list (`self.distance_history.get(car_id, [])`). -/
def histOf (st : EngineState α) (carId : ℕ) : List (α × α) :=
  (lookupA st.histories carId).getD []

/-- The cache maintenance of `calculate_distance_traveled` (timing_engine.py
lines 142-149): store under the `(car, time)` key, then, if the size exceeds
`DISTANCE_CACHE_SIZE`, delete the oldest `CACHE_CLEANUP_THRESHOLD` entries in
insertion order. -/
def cacheInsert (c : List ((ℕ × α) × α)) (key : ℕ × α) (v : α) :
    List ((ℕ × α) × α) :=
  let c2 := insertA c key v
  if DISTANCE_CACHE_SIZE < c2.length then c2.drop CACHE_CLEANUP_THRESHOLD else c2

/-- `F1LiveTiming.calculate_distance_traveled` (timing_engine.py lines
103-151): cache lookup; fewer than two samples up to `t` returns 0 without
caching; otherwise preliminary distance, reset detection, recovery when an
event was flagged (the recovered value replaces the preliminary one on
success), cache store with batch eviction.  Returns the distance and the
updated engine state; the event (with its recovery method filled in) is
archived in `events`. -/
def calcDistanceTraveled (cosdeg sqrtFn : α → α) (hav : α → α → α → α → α)
    (carId : ℕ) (t : α) (rows : List (Sample α)) (st : EngineState α) :
    α × EngineState α :=
  match lookupA st.cache (carId, t) with
  | some v => (v, st)
  | none =>
    let pos := rows.filter (fun s => decide (s.ts ≤ t))
    if pos.length < 2 then (0, st)
    else
      let prelim := calcPreliminaryDistance cosdeg sqrtFn pos
      let det := detectDistanceReset hav carId t prelim rows (histOf st carId)
      let st1 : EngineState α := { st with histories := insertA st.histories carId det.2 }
      match det.1 with
      | none =>
          (prelim, { st1 with cache := cacheInsert st1.cache (carId, t) prelim })
      | some ev =>
          let rr := recoverDistance hav ev rows det.2
          let final := if rr.1.success then rr.1.recovered_distance else prelim
          (final,
            { st1 with
                cache := cacheInsert st1.cache (carId, t) final
                events := st1.events ++ [rr.2] })

theorem lastN_append {γ : Type} (xs l : List γ) (n : ℕ) :
    (xs.drop (xs.length - n) ++ l).drop
        ((xs.drop (xs.length - n) ++ l).length - n) =
      (xs ++ l).drop ((xs ++ l).length - n) := by
  rw [List.drop_append_eq_append_drop, List.drop_append_eq_append_drop,
    List.drop_drop, List.length_append, List.length_append, List.length_drop]
  congr 1
  · congr 1
    omega
  · congr 1
    omega

theorem addToHistory_eq (h : List (α × α)) (t d : α) :
    addToHistory h t d =
      (h ++ [(t, d)]).drop ((h ++ [(t, d)]).length - MAX_HISTORY_SIZE) := by
  unfold addToHistory
  dsimp only
  split
  · rfl
  · have hz : (h ++ [(t, d)]).length - MAX_HISTORY_SIZE = 0 := by omega
    rw [hz, List.drop_zero]

theorem addToHistory_length_le (h : List (α × α)) (t d : α) :
    (addToHistory h t d).length ≤ MAX_HISTORY_SIZE := by
  unfold addToHistory
  dsimp only
  split
  · rw [List.length_drop]
    omega
  · simp only [List.length_append, List.length_singleton] at *
    omega

theorem foldl_addToHistory (l : List (α × α)) :
    ∀ h0 : List (α × α), h0.length ≤ MAX_HISTORY_SIZE →
      l.foldl (fun h p => addToHistory h p.1 p.2) h0 =
        (h0 ++ l).drop ((h0 ++ l).length - MAX_HISTORY_SIZE) := by
  induction l with
  | nil =>
      intro h0 hle
      have hz : h0.length - MAX_HISTORY_SIZE = 0 := by omega
      simp [hz]
  | cons p l ih =>
      intro h0 hle
      have hstep := addToHistory_eq h0 p.1 p.2
      have hlen := addToHistory_length_le h0 p.1 p.2
      calc (p :: l).foldl (fun h q => addToHistory h q.1 q.2) h0
          = l.foldl (fun h q => addToHistory h q.1 q.2) (addToHistory h0 p.1 p.2) := by
            simp [List.foldl_cons]
        _ = ((addToHistory h0 p.1 p.2) ++ l).drop
              (((addToHistory h0 p.1 p.2) ++ l).length - MAX_HISTORY_SIZE) :=
            ih _ hlen
        _ = ((h0 ++ [p]) ++ l).drop (((h0 ++ [p]) ++ l).length - MAX_HISTORY_SIZE) := by
            rw [hstep]
            exact lastN_append (h0 ++ [p]) l MAX_HISTORY_SIZE
        _ = (h0 ++ p :: l).drop ((h0 ++ p :: l).length - MAX_HISTORY_SIZE) := by
            simp

/-- C8: for every sequence of appends via `_add_to_history` starting from an
empty history, the history never exceeds `MAX_HISTORY_SIZE = 1000` entries,
and the result is exactly the most recent `min length 1000` appended points
in their original relative order (the suffix obtained by dropping the oldest
entries first). -/
theorem history_cap_c8 (l : List (ℚ × ℚ)) :
    l.foldl (fun h p => addToHistory h p.1 p.2) [] =
        l.drop (l.length - MAX_HISTORY_SIZE) ∧
      (l.foldl (fun h p => addToHistory h p.1 p.2) []).length =
        min l.length MAX_HISTORY_SIZE := by
  have h := foldl_addToHistory l [] (by simp [MAX_HISTORY_SIZE])
  simp only [List.nil_append] at h
  refine ⟨h, ?_⟩
  rw [h, List.length_drop]
  omega

/-- C9: whenever the elapsed time since the car's last recorded history
point exceeds 300 seconds, `detect_distance_reset` emits no event at all
(every anomaly check is skipped regardless of the distance delta), records
the point `(time, preliminaryDistance)` in the history, and returns none. -/
theorem large_gap_bypass_c9 (hav : ℚ → ℚ → ℚ → ℚ → ℚ) (carId : ℕ)
    (t d pt pd : ℚ) (rows : List (Sample ℚ)) (history : List (ℚ × ℚ))
    (hlast : history.getLast? = some (pt, pd)) (hgap : 300 < t - pt) :
    detectDistanceReset hav carId t d rows history =
      (none, addToHistory history t d) := by
  unfold detectDistanceReset
  rw [hlast]
  simp only [hgap, if_true]

theorem large_gap_bypass_c9_witness :
    detectDistanceReset (fun _ _ _ _ => (0 : ℚ)) 1 301 999 [] [(0, 5)] =
      (none, addToHistory [(0, 5)] 301 999) :=
  large_gap_bypass_c9 _ 1 301 999 0 5 [] [(0, 5)] rfl (by norm_num)

/-- C10: the implied-speed check divides by the elapsed time only under the
guard `time_diff > 0`; when the new reading carries the same timestamp as
the last history entry the guard is false, so no `speed_anomaly` event can
be emitted for that call (the call either emits a different event type or
none). -/
theorem speed_anomaly_guard_c10 (hav : ℚ → ℚ → ℚ → ℚ → ℚ) (carId : ℕ)
    (t d pd : ℚ) (rows : List (Sample ℚ)) (history : List (ℚ × ℚ))
    (hlast : history.getLast? = some (t, pd)) :
    (detectDistanceReset hav carId t d rows history).1 = none ∨
      ∃ ev, (detectDistanceReset hav carId t d rows history).1 = some ev ∧
        ev.reset_type ≠ "speed_anomaly" := by
  unfold detectDistanceReset
  rw [hlast]
  dsimp only
  have hz : t - t = 0 := sub_self t
  split_ifs with h1 h2 h3 h4 h5
  · exact Or.inl rfl
  · exact Or.inr ⟨_, rfl, by simp⟩
  · exact absurd h3.1 (by rw [hz]; exact lt_irrefl 0)
  · exact Or.inr ⟨_, rfl, by simp⟩
  · exact Or.inl rfl
  · exact Or.inl rfl

theorem speed_anomaly_guard_c10_witness :
    (detectDistanceReset (fun _ _ _ _ => (0 : ℚ)) 1 5 90 [] [(5, 100)]).1 = none ∨
      ∃ ev,
        (detectDistanceReset (fun _ _ _ _ => (0 : ℚ)) 1 5 90 [] [(5, 100)]).1 =
            some ev ∧
          ev.reset_type ≠ "speed_anomaly" :=
  speed_anomaly_guard_c10 _ 1 5 90 100 [] [(5, 100)] rfl

/-- C3 (amended): with non-empty history, previous distance 1000 m and time
gap at most 300 s, a current distance of 150 m (an 85% drop, above
`DROP_THRESHOLD_PERCENT = 80`) makes the detector emit `distance_drop` with
confidence 0.85; a current distance of 250 m (a 75% drop) emits no
`distance_drop` event — though a later check may still emit an event of a
different type (see the counterexample for the original "no event" claim). -/
theorem drop_boundary_c3 (hav : ℚ → ℚ → ℚ → ℚ → ℚ) (carId : ℕ) (t pt : ℚ)
    (rows : List (Sample ℚ)) (history : List (ℚ × ℚ))
    (hlast : history.getLast? = some (pt, 1000)) (hgap : t - pt ≤ 300) :
    detectDistanceReset hav carId t 150 rows history =
        (some ⟨carId, t, 1000, 150, 85, "distance_drop", "", 85 / 100⟩, history) ∧
      ((detectDistanceReset hav carId t 250 rows history).1 = none ∨
        ∃ ev, (detectDistanceReset hav carId t 250 rows history).1 = some ev ∧
          ev.reset_type ≠ "distance_drop") := by
  constructor
  · unfold detectDistanceReset
    rw [hlast]
    dsimp only
    rw [if_neg (not_lt.mpr hgap)]
    norm_num [min_def]
  · unfold detectDistanceReset
    rw [hlast]
    dsimp only
    rw [if_neg (not_lt.mpr hgap)]
    rw [if_neg (by norm_num)]
    split_ifs with h1 h2 h3
    · exact Or.inr ⟨_, rfl, by simp⟩
    · exact Or.inr ⟨_, rfl, by simp⟩
    · exact Or.inl rfl
    · exact Or.inl rfl

theorem drop_boundary_c3_witness :
    detectDistanceReset (fun _ _ _ _ => (0 : ℚ)) 1 10 150 [] [(0, 1000)] =
        (some ⟨1, 10, 1000, 150, 85, "distance_drop", "", 85 / 100⟩, [(0, 1000)]) ∧
      ((detectDistanceReset (fun _ _ _ _ => (0 : ℚ)) 1 10 250 [] [(0, 1000)]).1 =
          none ∨
        ∃ ev,
          (detectDistanceReset (fun _ _ _ _ => (0 : ℚ)) 1 10 250 []
                [(0, 1000)]).1 = some ev ∧
            ev.reset_type ≠ "distance_drop") :=
  drop_boundary_c3 _ 1 10 0 [] [(0, 1000)] rfl (by norm_num)

theorem drop_boundary_c3_counterexample :
    (detectDistanceReset (fun _ _ _ _ => (0 : ℚ)) 1 10 250 [] [(0, 1000)]).1 =
      some ⟨1, 10, 1000, 250, 0, "speed_anomaly", "", 1⟩ := by
  norm_num [detectDistanceReset, min_def]

/-- C5: `recover_distance` attempts the four strategies strictly in the
order speed_integration, gps_recovery, linear_interpolation, fallback, and
returns the first successful result, stamping the event's recovery method
with that strategy's name; in particular whenever speed integration
succeeds, its result is returned with method `speed_integration` regardless
of what the GPS strategy would have produced. -/
theorem recovery_priority_c5 (hav : ℚ → ℚ → ℚ → ℚ → ℚ) (ev : ResetEvent ℚ)
    (rows : List (Sample ℚ)) (history : List (ℚ × ℚ)) :
    ((recoverBySpeedIntegration ev rows history).success = true →
        recoverDistance hav ev rows history =
          (recoverBySpeedIntegration ev rows history,
           { ev with recovery_method := "speed_integration" })) ∧
      ((recoverBySpeedIntegration ev rows history).success = false →
        (recoverByGps hav ev rows history).success = true →
        recoverDistance hav ev rows history =
          (recoverByGps hav ev rows history,
           { ev with recovery_method := "gps_recovery" })) ∧
      ((recoverBySpeedIntegration ev rows history).success = false →
        (recoverByGps hav ev rows history).success = false →
        (recoverByInterpolation ev history).success = true →
        recoverDistance hav ev rows history =
          (recoverByInterpolation ev history,
           { ev with recovery_method := "linear_interpolation" })) ∧
      ((recoverBySpeedIntegration ev rows history).success = false →
        (recoverByGps hav ev rows history).success = false →
        (recoverByInterpolation ev history).success = false →
        recoverDistance hav ev rows history =
          (recoverByFallback ev history,
           { ev with recovery_method := "fallback" })) := by
  refine ⟨fun h1 => ?_, fun h1 h2 => ?_, fun h1 h2 h3 => ?_, fun h1 h2 h3 => ?_⟩ <;>
    simp [recoverDistance, h1]
  · simp [h2]
  · simp [h2, h3]
  · simp [h2, h3]

theorem recovery_priority_c5_witness :
    recoverDistance (fun _ _ _ _ => (0 : ℚ))
        ⟨1, 10, 1000, 5, 0, "speed_anomaly", "", 1⟩
        [⟨5, none, none, 0, 0, some 72⟩] [(0, 100), (10, 1000)] =
      (recoverBySpeedIntegration ⟨1, 10, 1000, 5, 0, "speed_anomaly", "", 1⟩
          [⟨5, none, none, 0, 0, some 72⟩] [(0, 100), (10, 1000)],
       { (⟨1, 10, 1000, 5, 0, "speed_anomaly", "", 1⟩ : ResetEvent ℚ) with
           recovery_method := "speed_integration" }) :=
  (recovery_priority_c5 _ _ _ _).1
    (by norm_num [recoverBySpeedIntegration, integrateSpeed, min_def,
      List.filter_cons])

/-- C6: `recover_distance` always returns a successful result: when the
first three strategies fail, the fallback succeeds with confidence 0.5,
returning the second-to-last history entry's distance when at least two
entries exist, the only entry's distance when exactly one exists, and the
event's `prev_distance` when the history is empty. -/
theorem fallback_guarantee_c6 (hav : ℚ → ℚ → ℚ → ℚ → ℚ) (ev : ResetEvent ℚ)
    (rows : List (Sample ℚ)) (history : List (ℚ × ℚ)) :
    (recoverDistance hav ev rows history).1.success = true ∧
      ((recoverBySpeedIntegration ev rows history).success = false →
        (recoverByGps hav ev rows history).success = false →
        (recoverByInterpolation ev history).success = false →
        (recoverDistance hav ev rows history).1 =
          ⟨true,
            if h : 2 ≤ history.length then
              (history.get ⟨history.length - 2, by omega⟩).2
            else
              match history.getLast? with
              | some last => last.2
              | none => ev.prev_distance,
            "fallback", 1 / 2, none⟩) := by
  constructor
  · unfold recoverDistance
    dsimp only
    split_ifs with h1 h2 h3
    · exact h1
    · exact h2
    · exact h3
    · rfl
  · intro h1 h2 h3
    have hmain : (recoverDistance hav ev rows history).1 = recoverByFallback ev history := by
      simp [recoverDistance, h1, h2, h3]
    rw [hmain]
    unfold recoverByFallback
    dsimp only
    split_ifs with hlen
    · rfl
    · rcases hL : history.getLast? with _ | last <;> simp [hL]

theorem fallback_guarantee_c6_witness :
    (recoverDistance (fun _ _ _ _ => (0 : ℚ))
          ⟨1, 10, 123, 5, 0, "distance_drop", "", 1⟩ [] []).1 =
      ⟨true, 123, "fallback", 1 / 2, none⟩ := by
  have h :=
    (fallback_guarantee_c6 (fun _ _ _ _ => (0 : ℚ))
          ⟨1, 10, 123, 5, 0, "distance_drop", "", 1⟩ [] []).2
      (by norm_num [recoverBySpeedIntegration])
      (by norm_num [recoverByGps, gpsDistFromStart])
      (by norm_num [recoverByInterpolation])
  simpa using h

theorem insertA_fresh {κ ν : Type} [DecidableEq κ] (m : List (κ × ν)) (k : κ)
    (v : ν) (h : ∀ p ∈ m, p.1 ≠ k) : insertA m k v = m ++ [(k, v)] := by
  unfold insertA
  rw [if_neg]
  simp only [List.any_eq_true, decide_eq_true_eq, not_exists]
  intro p hp
  exact h p hp.1 hp.2

theorem foldl_cacheInsert (kvs : List ((ℕ × ℚ) × ℚ)) :
    ∀ c : List ((ℕ × ℚ) × ℚ),
      c.length + kvs.length ≤ DISTANCE_CACHE_SIZE →
      (∀ q ∈ kvs, ∀ p ∈ c, p.1 ≠ q.1) →
      kvs.Pairwise (fun a b => a.1 ≠ b.1) →
      kvs.foldl (fun c q => cacheInsert c q.1 q.2) c = c ++ kvs := by
  induction kvs with
  | nil => intro c _ _ _; simp
  | cons q kvs ih =>
      intro c hlen hfresh hpair
      have hq : insertA c q.1 q.2 = c ++ [q] := by
        have := insertA_fresh c q.1 q.2 (hfresh q (by simp))
        simpa using this
      have hstep : cacheInsert c q.1 q.2 = c ++ [q] := by
        unfold cacheInsert
        dsimp only
        rw [hq, if_neg]
        simp only [List.length_append, List.length_singleton, not_lt]
        simp only [List.length_cons] at hlen
        omega
      rw [List.foldl_cons, hstep]
      have hres := ih (c ++ [q])
        (by simp only [List.length_append, List.length_singleton,
              List.length_cons, List.length_nil] at hlen ⊢; omega)
        (by intro r hr p hp
            rcases List.mem_append.mp hp with hpc | hpq
            · exact hfresh r (by simp [hr]) p hpc
            · rcases List.mem_singleton.mp hpq with rfl
              exact (List.pairwise_cons.mp hpair).1 r hr)
        (List.Pairwise.of_cons hpair)
      rw [hres]
      simp

/-- C7: starting from an empty distance cache, inserting
`DISTANCE_CACHE_SIZE + 1 = 1001` distinct `(vehicleId, timestamp)` keys via
the cache-maintenance step of `calculate_distance_traveled` triggers exactly
one batch eviction — no eviction occurs during the first 1000 insertions —
which removes exactly the `CACHE_CLEANUP_THRESHOLD = 200` oldest entries in
insertion order, leaving `DISTANCE_CACHE_SIZE - CACHE_CLEANUP_THRESHOLD + 1
= 801` entries. -/
theorem cache_eviction_c7 (f : ℕ → ℕ × ℚ) (hf : Function.Injective f)
    (v : ℕ → ℚ) :
    ((List.range (DISTANCE_CACHE_SIZE + 1)).map (fun i => (f i, v i))).foldl
          (fun c q => cacheInsert c q.1 q.2) [] =
        ((List.range (DISTANCE_CACHE_SIZE + 1)).map (fun i => (f i, v i))).drop
          CACHE_CLEANUP_THRESHOLD ∧
      (((List.range (DISTANCE_CACHE_SIZE + 1)).map (fun i => (f i, v i))).foldl
            (fun c q => cacheInsert c q.1 q.2) []).length =
        DISTANCE_CACHE_SIZE - CACHE_CLEANUP_THRESHOLD + 1 ∧
      ((List.range DISTANCE_CACHE_SIZE).map (fun i => (f i, v i))).foldl
          (fun c q => cacheInsert c q.1 q.2) [] =
        (List.range DISTANCE_CACHE_SIZE).map (fun i => (f i, v i)) := by
  have hpair : ∀ n : ℕ, ((List.range n).map (fun i => (f i, v i))).Pairwise
      (fun a b => a.1 ≠ b.1) := by
    intro n
    rw [List.pairwise_map]
    refine List.Pairwise.imp ?_ (List.pairwise_lt_range n)
    intro a b hab hfe
    exact absurd (hf hfe) (Nat.ne_of_lt hab)
  have hsmall : ((List.range DISTANCE_CACHE_SIZE).map (fun i => (f i, v i))).foldl
      (fun c q => cacheInsert c q.1 q.2) [] =
      (List.range DISTANCE_CACHE_SIZE).map (fun i => (f i, v i)) := by
    have := foldl_cacheInsert ((List.range DISTANCE_CACHE_SIZE).map
        (fun i => (f i, v i))) [] (by simp) (by simp) (hpair _)
    simpa using this
  have hsplit : (List.range (DISTANCE_CACHE_SIZE + 1)).map (fun i => (f i, v i)) =
      (List.range DISTANCE_CACHE_SIZE).map (fun i => (f i, v i)) ++
        [(f DISTANCE_CACHE_SIZE, v DISTANCE_CACHE_SIZE)] := by
    rw [List.range_succ, List.map_append, List.map_singleton]
  have hlast : ((List.range (DISTANCE_CACHE_SIZE + 1)).map
        (fun i => (f i, v i))).foldl (fun c q => cacheInsert c q.1 q.2) [] =
      ((List.range (DISTANCE_CACHE_SIZE + 1)).map (fun i => (f i, v i))).drop
        CACHE_CLEANUP_THRESHOLD := by
    rw [hsplit, List.foldl_append, hsmall, List.foldl_cons, List.foldl_nil]
    have hfresh : insertA ((List.range DISTANCE_CACHE_SIZE).map
          (fun i => (f i, v i))) (f DISTANCE_CACHE_SIZE) (v DISTANCE_CACHE_SIZE) =
        (List.range DISTANCE_CACHE_SIZE).map (fun i => (f i, v i)) ++
          [(f DISTANCE_CACHE_SIZE, v DISTANCE_CACHE_SIZE)] := by
      refine insertA_fresh _ _ _ ?_
      intro p hp
      rcases List.mem_map.mp hp with ⟨i, hi, rfl⟩
      intro hfe
      have := hf hfe
      have hilt := List.mem_range.mp hi
      omega
    unfold cacheInsert
    dsimp only
    rw [hfresh, if_pos]
    simp only [List.length_append, List.length_map, List.length_range,
      List.length_singleton, List.length_cons, List.length_nil]
    omega
  refine ⟨hlast, ?_, hsmall⟩
  rw [hlast, List.length_drop]
  simp only [List.length_map, List.length_range]
  have h1 : DISTANCE_CACHE_SIZE = 1000 := rfl
  have h2 : CACHE_CLEANUP_THRESHOLD = 200 := rfl
  omega

theorem cache_eviction_c7_witness :
    ((List.range (DISTANCE_CACHE_SIZE + 1)).map
          (fun i => (((1, (i : ℚ)) : ℕ × ℚ), (0 : ℚ)))).foldl
          (fun c q => cacheInsert c q.1 q.2) [] =
        ((List.range (DISTANCE_CACHE_SIZE + 1)).map
          (fun i => (((1, (i : ℚ)) : ℕ × ℚ), (0 : ℚ)))).drop
          CACHE_CLEANUP_THRESHOLD ∧
      (((List.range (DISTANCE_CACHE_SIZE + 1)).map
            (fun i => (((1, (i : ℚ)) : ℕ × ℚ), (0 : ℚ)))).foldl
            (fun c q => cacheInsert c q.1 q.2) []).length =
        DISTANCE_CACHE_SIZE - CACHE_CLEANUP_THRESHOLD + 1 ∧
      ((List.range DISTANCE_CACHE_SIZE).map
          (fun i => (((1, (i : ℚ)) : ℕ × ℚ), (0 : ℚ)))).foldl
          (fun c q => cacheInsert c q.1 q.2) [] =
        (List.range DISTANCE_CACHE_SIZE).map
          (fun i => (((1, (i : ℚ)) : ℕ × ℚ), (0 : ℚ))) :=
  cache_eviction_c7 (fun i => (1, (i : ℚ)))
    (fun a b h => by simpa using h) (fun _ => 0)

theorem lookupA_map_update {κ ν : Type} [DecidableEq κ] (m : List (κ × ν))
    (k : κ) (v : ν) (hany : (m.any fun p => decide (p.1 = k)) = true) :
    lookupA (m.map (fun p => if p.1 = k then (k, v) else p)) k = some v := by
  induction m with
  | nil => simp at hany
  | cons p m ih =>
      simp only [List.map_cons]
      by_cases hpk : p.1 = k
      · rw [if_pos hpk]
        simp [lookupA]
      · rw [if_neg hpk]
        have h2 : lookupA (p :: m.map (fun p => if p.1 = k then (k, v) else p)) k =
            lookupA (m.map (fun p => if p.1 = k then (k, v) else p)) k := by
          simp [lookupA, hpk]
        rw [h2]
        apply ih
        cases hb : (m.any fun p => decide (p.1 = k)) with
        | true => rfl
        | false =>
            exfalso
            rw [List.any_cons, hb] at hany
            simp [hpk] at hany

theorem lookupA_append_fresh {κ ν : Type} [DecidableEq κ] (m : List (κ × ν))
    (k : κ) (v : ν) (h : (m.any fun p => decide (p.1 = k)) = false) :
    lookupA (m ++ [(k, v)]) k = some v := by
  induction m with
  | nil => simp [lookupA]
  | cons p m ih =>
      simp only [List.any_cons, Bool.or_eq_false_iff, decide_eq_false_iff_not] at h
      simp only [List.cons_append]
      have h2 : lookupA (p :: (m ++ [(k, v)])) k = lookupA (m ++ [(k, v)]) k := by
        simp [lookupA, h.1]
      rw [h2]
      exact ih (by simpa using h.2)

theorem lookupA_insertA_self {κ ν : Type} [DecidableEq κ] (m : List (κ × ν))
    (k : κ) (v : ν) : lookupA (insertA m k v) k = some v := by
  unfold insertA
  by_cases hany : (m.any fun p => decide (p.1 = k)) = true
  · rw [if_pos hany]
    exact lookupA_map_update m k v hany
  · rw [if_neg hany]
    refine lookupA_append_fresh m k v ?_
    cases hb : (m.any fun p => decide (p.1 = k)) with
    | false => rfl
    | true => exact absurd hb hany

theorem detect_some_hist (hav : α → α → α → α → α) (carId : ℕ) (t d : α)
    (rows : List (Sample α)) (history : List (α × α)) (ev : ResetEvent α)
    (h : (detectDistanceReset hav carId t d rows history).1 = some ev) :
    (detectDistanceReset hav carId t d rows history).2 = history := by
  unfold detectDistanceReset at h ⊢
  rcases hL : history.getLast? with _ | ⟨pt, pd⟩
  · rw [hL] at h
    simp at h
  · rw [hL] at h
    dsimp only at h ⊢
    split_ifs at h ⊢ <;> rfl

/-- C1 (amended): in every `calculate_distance_traveled` call (cache miss,
at least two samples) in which the reset detector flags an anomaly, the
vehicle's distance history is left completely unchanged by that call: the
corrupted preliminary distance is never persisted, but the recovered
distance `(t, recoveredResult.distance)` is not appended either — detection
returns before `_add_to_history`, and neither recovery nor the engine ever
appends for that call. -/
theorem anomaly_history_c1 (cosdeg sqrtFn : ℚ → ℚ) (hav : ℚ → ℚ → ℚ → ℚ → ℚ)
    (carId : ℕ) (t : ℚ) (rows : List (Sample ℚ)) (st : EngineState ℚ)
    (ev : ResetEvent ℚ)
    (hmiss : lookupA st.cache (carId, t) = none)
    (hlen : 2 ≤ (rows.filter (fun s => decide (s.ts ≤ t))).length)
    (hdet : (detectDistanceReset hav carId t
        (calcPreliminaryDistance cosdeg sqrtFn
          (rows.filter (fun s => decide (s.ts ≤ t))))
        rows (histOf st carId)).1 = some ev) :
    histOf (calcDistanceTraveled cosdeg sqrtFn hav carId t rows st).2 carId =
      histOf st carId := by
  have hhist := detect_some_hist hav carId t
    (calcPreliminaryDistance cosdeg sqrtFn
      (rows.filter (fun s => decide (s.ts ≤ t))))
    rows (histOf st carId) ev hdet
  unfold calcDistanceTraveled
  rw [hmiss]
  dsimp only
  rw [if_neg (by omega)]
  rw [hdet]
  dsimp only
  rw [hhist]
  unfold histOf
  rw [lookupA_insertA_self]
  rfl

def z0 : ℚ → ℚ := fun _ => 0

def hav0 : ℚ → ℚ → ℚ → ℚ → ℚ := fun _ _ _ _ => 0

/-- A speed-only telemetry stream (valid non-negative speeds, no GPS): 0,
72, 72 and 720 km/h at 0, 10, 20 and 30 seconds. -/
def rowsRun : List (Sample ℚ) :=
  [⟨0, none, none, 0, 0, some 0⟩, ⟨10, none, none, 0, 0, some 72⟩,
   ⟨20, none, none, 0, 0, some 72⟩, ⟨30, none, none, 0, 0, some 720⟩]

def stA : EngineState ℚ := ⟨[((1, 10), 200)], [(1, [(10, 200)])], []⟩

def stB : EngineState ℚ :=
  ⟨[((1, 10), 200), ((1, 20), 400)], [(1, [(10, 200), (20, 400)])], []⟩

def stC : EngineState ℚ :=
  ⟨[((1, 10), 200), ((1, 20), 400), ((1, 30), 200)],
   [(1, [(10, 200), (20, 400)])],
   [⟨1, 30, 400, 2400, 0, "speed_anomaly", "fallback", 1⟩]⟩

theorem runCall1 :
    calcDistanceTraveled z0 z0 hav0 1 10 rowsRun emptyEngine = (200, stA) := by
  norm_num [calcDistanceTraveled, emptyEngine, rowsRun, stA, lookupA, insertA,
    histOf, calcPreliminaryDistance, tier2Distance, validGpsRow, validSpeedRow,
    consecPairs, speedSegment, detectDistanceReset, addToHistory,
    MAX_HISTORY_SIZE, cacheInsert, DISTANCE_CACHE_SIZE, z0, hav0,
    List.filter_cons]

theorem runCall2 :
    calcDistanceTraveled z0 z0 hav0 1 20 rowsRun stA = (400, stB) := by
  norm_num [calcDistanceTraveled, rowsRun, stA, stB, lookupA, insertA,
    histOf, calcPreliminaryDistance, tier2Distance, validGpsRow, validSpeedRow,
    consecPairs, speedSegment, detectDistanceReset, addToHistory,
    MAX_HISTORY_SIZE, cacheInsert, DISTANCE_CACHE_SIZE, z0, hav0, closestRow,
    isValidGpsCoordinate, List.filter_cons]

theorem detectRun3 :
    detectDistanceReset hav0 1 30
        (calcPreliminaryDistance z0 z0
          (rowsRun.filter (fun s => decide (s.ts ≤ 30))))
        rowsRun (histOf stB 1) =
      (some ⟨1, 30, 400, 2400, 0, "speed_anomaly", "", 1⟩,
       [(10, 200), (20, 400)]) := by
  norm_num [rowsRun, stB, lookupA, histOf, calcPreliminaryDistance,
    tier2Distance, validGpsRow, validSpeedRow, consecPairs, speedSegment,
    detectDistanceReset, z0, hav0, min_def, List.filter_cons]

theorem runCall3 :
    calcDistanceTraveled z0 z0 hav0 1 30 rowsRun stB = (200, stC) := by
  norm_num [calcDistanceTraveled, rowsRun, stB, stC, lookupA, insertA,
    histOf, calcPreliminaryDistance, tier2Distance, validGpsRow, validSpeedRow,
    consecPairs, speedSegment, detectDistanceReset, addToHistory,
    MAX_HISTORY_SIZE, cacheInsert, DISTANCE_CACHE_SIZE, z0, hav0, closestRow,
    isValidGpsCoordinate, recoverDistance, recoverBySpeedIntegration,
    integrateSpeed, recoverByGps, gpsDistFromStart, recoverByInterpolation,
    recoverByFallback, min_def, List.filter_cons]

theorem anomaly_history_c1_counterexample :
    (detectDistanceReset hav0 1 30
          (calcPreliminaryDistance z0 z0
            (rowsRun.filter (fun s => decide (s.ts ≤ 30))))
          rowsRun (histOf stB 1)).1 =
        some ⟨1, 30, 400, 2400, 0, "speed_anomaly", "", 1⟩ ∧
      (calcDistanceTraveled z0 z0 hav0 1 30 rowsRun stB).1 = 200 ∧
      histOf (calcDistanceTraveled z0 z0 hav0 1 30 rowsRun stB).2 1 =
        [(10, 200), (20, 400)] ∧
      ([(10, 200), (20, 400)] : List (ℚ × ℚ)) ≠
        [(10, 200), (20, 400)] ++ [(30, 200)] := by
  refine ⟨by rw [detectRun3], by rw [runCall3], ?_, by simp⟩
  rw [runCall3]
  norm_num [histOf, stC, stB, lookupA]

theorem anomaly_history_c1_witness :
    histOf (calcDistanceTraveled z0 z0 hav0 1 30 rowsRun stB).2 1 =
      histOf stB 1 :=
  anomaly_history_c1 z0 z0 hav0 1 30 rowsRun stB
    ⟨1, 30, 400, 2400, 0, "speed_anomaly", "", 1⟩
    (by norm_num [stB, lookupA])
    (by norm_num [rowsRun, List.filter_cons])
    (by rw [detectRun3])

/-- The pure distance computation of `calculate_distance_traveled` before
reset detection and caching (timing_engine.py lines 111-119): all samples up
to `t`, 0 when fewer than two exist, otherwise the preliminary distance. -/
def prelimAt (cosdeg sqrtFn : α → α) (rows : List (Sample α)) (t : α) : α :=
  let pos := rows.filter (fun s => decide (s.ts ≤ t))
  if pos.length < 2 then 0 else calcPreliminaryDistance cosdeg sqrtFn pos

theorem consecPairs_append {γ : Type} :
    ∀ l r : List γ, ∃ q, consecPairs (l ++ r) = consecPairs l ++ q
  | [], r => ⟨consecPairs r, by simp [consecPairs]⟩
  | [a], r => by
      cases r with
      | nil => exact ⟨[], by simp [consecPairs]⟩
      | cons b r' => exact ⟨(a, b) :: consecPairs (b :: r'), by simp [consecPairs]⟩
  | a :: b :: l', r => by
      obtain ⟨q, hq⟩ := consecPairs_append (b :: l') r
      rw [List.cons_append] at hq
      exact ⟨q, by simp only [List.cons_append, consecPairs, List.append_eq, hq]⟩

theorem tier2Distance_nonneg (l : List (Sample ℚ)) : 0 ≤ tier2Distance l := by
  unfold tier2Distance
  apply List.sum_nonneg
  intro a ha
  rw [List.mem_filter] at ha
  exact of_decide_eq_true ha.2

theorem tier2Distance_append_le (l r : List (Sample ℚ)) :
    tier2Distance l ≤ tier2Distance (l ++ r) := by
  obtain ⟨q, hq⟩ := consecPairs_append l r
  unfold tier2Distance
  rw [hq, List.map_append, List.filter_append, List.sum_append]
  have hnn : 0 ≤ ((q.map (fun pq => speedSegment pq.1 pq.2)).filter
      (fun seg => decide (0 ≤ seg))).sum := by
    apply List.sum_nonneg
    intro a ha
    rw [List.mem_filter] at ha
    exact of_decide_eq_true ha.2
  linarith

theorem prelim_speed_only (cosdeg sqrtFn : ℚ → ℚ) (pos : List (Sample ℚ))
    (hgps : pos.filter validGpsRow = [])
    (hspeed : pos.filter validSpeedRow = pos)
    (hlen : 2 ≤ pos.length) :
    calcPreliminaryDistance cosdeg sqrtFn pos = tier2Distance pos := by
  unfold calcPreliminaryDistance
  dsimp only
  rw [hgps, hspeed]
  rw [if_neg (by simp), if_pos hlen]

theorem filter_le_time_split (t1 t2 : ℚ) (h12 : t1 ≤ t2) :
    ∀ rows : List (Sample ℚ), rows.Pairwise (fun a b => a.ts ≤ b.ts) →
      ∃ r, rows.filter (fun s => decide (s.ts ≤ t2)) =
        rows.filter (fun s => decide (s.ts ≤ t1)) ++ r := by
  intro rows
  induction rows with
  | nil => exact fun _ => ⟨[], rfl⟩
  | cons s rows ih =>
      intro hp
      rcases List.pairwise_cons.mp hp with ⟨hhead, htail⟩
      by_cases h1 : s.ts ≤ t1
      · obtain ⟨r, hr⟩ := ih htail
        refine ⟨r, ?_⟩
        rw [List.filter_cons_of_pos (by simpa using le_trans h1 h12),
          List.filter_cons_of_pos (by simpa using h1), hr, List.cons_append]
      · have hnil : rows.filter (fun s => decide (s.ts ≤ t1)) = [] := by
          rw [List.filter_eq_nil_iff]
          intro a ha
          simp only [decide_eq_true_eq]
          intro hle
          exact h1 (le_trans (hhead a ha) hle)
        have hnilc : (s :: rows).filter (fun s => decide (s.ts ≤ t1)) = [] := by
          rw [List.filter_cons_of_neg (by simpa using h1), hnil]
        refine ⟨(s :: rows).filter (fun s => decide (s.ts ≤ t2)), ?_⟩
        rw [hnilc, List.nil_append]

/-- C4 (amended): for a vehicle whose samples are time-sorted, all carry
valid (non-NaN, non-negative) speed and have no GPS data, the preliminary
distance underlying `calculate_distance_traveled` is non-decreasing in the
query time, and `calculate_distance_traveled` returns exactly that value on
every call in which no reset event is flagged.  (The full `distanceAt` is
not monotone: when an anomaly is flagged, recovery can return an earlier
history value — see the counterexample.) -/
theorem monotonic_c4 (cosdeg sqrtFn : ℚ → ℚ) (rows : List (Sample ℚ))
    (hsorted : rows.Pairwise (fun a b => a.ts ≤ b.ts))
    (hspeed : rows.filter validSpeedRow = rows)
    (hgps : rows.filter validGpsRow = [])
    (t1 t2 : ℚ) (h12 : t1 ≤ t2) :
    prelimAt cosdeg sqrtFn rows t1 ≤ prelimAt cosdeg sqrtFn rows t2 ∧
      ∀ (hav : ℚ → ℚ → ℚ → ℚ → ℚ) (carId : ℕ) (st : EngineState ℚ),
        lookupA st.cache (carId, t1) = none →
        (detectDistanceReset hav carId t1
            (calcPreliminaryDistance cosdeg sqrtFn
              (rows.filter (fun s => decide (s.ts ≤ t1))))
            rows (histOf st carId)).1 = none →
        (calcDistanceTraveled cosdeg sqrtFn hav carId t1 rows st).1 =
          prelimAt cosdeg sqrtFn rows t1 := by
  have hkey : ∀ t : ℚ,
      (rows.filter (fun s => decide (s.ts ≤ t))).filter validGpsRow = [] ∧
        (rows.filter (fun s => decide (s.ts ≤ t))).filter validSpeedRow =
          rows.filter (fun s => decide (s.ts ≤ t)) := by
    intro t
    constructor
    · refine List.sublist_nil.mp ?_
      rw [← hgps]
      exact List.Sublist.filter validGpsRow (List.filter_sublist rows)
    · rw [List.filter_eq_self]
      intro a ha
      exact (List.filter_eq_self.mp hspeed) a (List.mem_of_mem_filter ha)
  constructor
  · obtain ⟨r, hr⟩ := filter_le_time_split t1 t2 h12 rows hsorted
    unfold prelimAt
    dsimp only
    by_cases hl1 : (rows.filter (fun s => decide (s.ts ≤ t1))).length < 2
    · rw [if_pos hl1]
      by_cases hl2 : (rows.filter (fun s => decide (s.ts ≤ t2))).length < 2
      · rw [if_pos hl2]
      · rw [if_neg hl2,
          prelim_speed_only cosdeg sqrtFn _ (hkey t2).1 (hkey t2).2 (by omega)]
        exact tier2Distance_nonneg _
    · have hl2 : ¬(rows.filter (fun s => decide (s.ts ≤ t2))).length < 2 := by
        rw [hr, List.length_append]
        omega
      rw [if_neg hl1, if_neg hl2,
        prelim_speed_only cosdeg sqrtFn _ (hkey t1).1 (hkey t1).2 (by omega),
        prelim_speed_only cosdeg sqrtFn _ (hkey t2).1 (hkey t2).2 (by omega), hr]
      exact tier2Distance_append_le _ r
  · intro hav carId st hmiss hdet
    unfold calcDistanceTraveled prelimAt
    rw [hmiss]
    dsimp only
    by_cases hl : (rows.filter (fun s => decide (s.ts ≤ t1))).length < 2
    · rw [if_pos hl, if_pos hl]
    · rw [if_neg hl, if_neg hl, hdet]

theorem monotonic_c4_witness :
    prelimAt z0 z0 rowsRun 15 ≤ prelimAt z0 z0 rowsRun 25 ∧
      ∀ (hav : ℚ → ℚ → ℚ → ℚ → ℚ) (carId : ℕ) (st : EngineState ℚ),
        lookupA st.cache (carId, 15) = none →
        (detectDistanceReset hav carId 15
            (calcPreliminaryDistance z0 z0
              (rowsRun.filter (fun s => decide (s.ts ≤ 15))))
            rowsRun (histOf st carId)).1 = none →
        (calcDistanceTraveled z0 z0 hav carId 15 rowsRun st).1 =
          prelimAt z0 z0 rowsRun 15 :=
  monotonic_c4 z0 z0 rowsRun
    (by norm_num [rowsRun, List.pairwise_cons])
    (by norm_num [rowsRun, validSpeedRow, List.filter_cons])
    (by norm_num [rowsRun, validGpsRow, List.filter_cons])
    15 25 (by norm_num)

theorem monotonic_c4_counterexample :
    rowsRun.filter validSpeedRow = rowsRun ∧
      rowsRun.filter validGpsRow = [] ∧
      calcDistanceTraveled z0 z0 hav0 1 10 rowsRun emptyEngine = (200, stA) ∧
      calcDistanceTraveled z0 z0 hav0 1 20 rowsRun stA = (400, stB) ∧
      calcDistanceTraveled z0 z0 hav0 1 30 rowsRun stB = (200, stC) ∧
      ¬((calcDistanceTraveled z0 z0 hav0 1 20 rowsRun stA).1 ≤
        (calcDistanceTraveled z0 z0 hav0 1 30 rowsRun stB).1) := by
  refine ⟨by norm_num [rowsRun, validSpeedRow, List.filter_cons],
    by norm_num [rowsRun, validGpsRow, List.filter_cons],
    runCall1, runCall2, runCall3, ?_⟩
  rw [runCall2, runCall3]
  norm_num

/-- `np.cos(np.radians(x))` over the reals: cosine of `x` degrees. -/
noncomputable def cosdegR : ℝ → ℝ := fun x => Real.cos (x * Real.pi / 180)

/-- The GPS validity predicate exactly as the claim words it: lat/lon not
NaN, not exactly `(0,0)`, within `[-90,90]×[-180,180]` (this is the
detector's `_is_valid_gps_coordinate`, which the preliminary-distance tier
does NOT use — its mask is `validGpsRow`). -/
noncomputable def specValidGps (s : Sample ℝ) : Bool :=
  match s.lat, s.lon with
  | some la, some lo =>
      decide (¬(la = 0 ∧ lo = 0) ∧
        -90 ≤ la ∧ la ≤ 90 ∧ -180 ≤ lo ∧ lo ≤ 180)
  | _, _ => false

/-- The flat-earth consecutive-pair sum written as the spec describes it:
`Δlat·111000` north-south, `Δlon·111000·cos(lat in radians)` east-west
(latitude of the later sample), Euclidean combine, summed over consecutive
pairs of the given (already filtered) samples. -/
noncomputable def flatEarthPairSum : List (Sample ℝ) → ℝ
  | [] => 0
  | [_] => 0
  | p :: q :: rest =>
      Real.sqrt (((q.lat.getD 0 - p.lat.getD 0) * 111000) ^ 2 +
          ((q.lon.getD 0 - p.lon.getD 0) * 111000 *
            Real.cos (q.lat.getD 0 * Real.pi / 180)) ^ 2) +
        flatEarthPairSum (q :: rest)

theorem tier1_eq_flatEarth : ∀ l : List (Sample ℝ),
    tier1Distance cosdegR Real.sqrt l = flatEarthPairSum l
  | [] => by simp [tier1Distance, consecPairs, flatEarthPairSum]
  | [a] => by simp [tier1Distance, consecPairs, flatEarthPairSum]
  | a :: b :: rest => by
      have ih := tier1_eq_flatEarth (b :: rest)
      simp only [tier1Distance, consecPairs, List.map_cons, List.sum_cons] at ih ⊢
      rw [ih, flatEarthPairSum]
      rfl

/-- C2 (amended): whenever at least two samples pass the code's tier-1 GPS
mask — lat and lon each present (non-NaN) and each individually nonzero,
with NO range check — the preliminary distance equals the flat-earth
pairwise sum over the consecutive mask-passing samples (gaps skipped, not
interpolated), regardless of any speed or x/y data also present.  The
claim's validity predicate (not exactly `(0,0)`, ranges checked) belongs to
the detector, not to this tier — see the counterexample. -/
theorem tier_selection_c2 (rows : List (Sample ℝ))
    (hcount : 2 ≤ (rows.filter validGpsRow).length) :
    calcPreliminaryDistance cosdegR Real.sqrt rows =
      flatEarthPairSum (rows.filter validGpsRow) := by
  unfold calcPreliminaryDistance
  dsimp only
  rw [if_pos hcount]
  exact tier1_eq_flatEarth _

noncomputable def exW : List (Sample ℝ) :=
  [⟨0, some 7, some 7, 1, 2, some 3⟩, ⟨10, some 8, some 7, 5, 6, some 4⟩]

theorem tier_selection_c2_witness :
    2 ≤ (exW.filter validGpsRow).length ∧
      calcPreliminaryDistance cosdegR Real.sqrt exW =
        flatEarthPairSum (exW.filter validGpsRow) :=
  ⟨by norm_num [exW, validGpsRow, List.filter_cons],
   tier_selection_c2 exW (by norm_num [exW, validGpsRow, List.filter_cons])⟩

/-- Two samples on the equator (latitude exactly 0): valid under the
claim's predicate, rejected by the code's tier-1 mask. -/
noncomputable def exC2 : List (Sample ℝ) :=
  [⟨0, some 0, some 50, 0, 0, none⟩, ⟨10, some 0, some 60, 0, 0, none⟩]

theorem tier_selection_c2_counterexample :
    2 ≤ (exC2.filter specValidGps).length ∧
      calcPreliminaryDistance cosdegR Real.sqrt exC2 ≠
        flatEarthPairSum (exC2.filter specValidGps) := by
  have hspec : exC2.filter specValidGps = exC2 := by
    norm_num [exC2, specValidGps, List.filter_cons]
  have hcode : calcPreliminaryDistance cosdegR Real.sqrt exC2 = 0 := by
    norm_num [calcPreliminaryDistance, validGpsRow, validSpeedRow,
      tier3Distance, consecPairs, exC2, List.filter_cons, Real.sqrt_zero]
  have hval : flatEarthPairSum exC2 = 1110000 := by
    unfold exC2
    rw [flatEarthPairSum, flatEarthPairSum]
    simp only [Option.getD_some]
    have hc : (0 : ℝ) * Real.pi / 180 = 0 := by ring
    rw [hc, Real.cos_zero]
    have h1 : (((0 : ℝ) - 0) * 111000) ^ 2 +
        (((60 : ℝ) - 50) * 111000 * 1) ^ 2 = 1110000 ^ 2 := by norm_num
    rw [h1, Real.sqrt_sq (by norm_num : (0 : ℝ) ≤ 1110000)]
    norm_num
  refine ⟨by rw [hspec]; norm_num [exC2], ?_⟩
  rw [hspec, hcode, hval]
  norm_num

end CarRacing
